import Mathlib

/-!
Verification of the dess_monitor sensor/control normalization core
(custom_components/dess_monitor/api/helpers.py and
custom_components/dess_monitor/api/resolvers/data_resolvers.py).

The Python code operates on JSON-like dynamic values.  We embed them as the
mutual inductive family `JVal`/`JList`/`JFields` (Python dicts keep insertion
order, so an ordered field list is the faithful representation; keys are
unique in every dict the code can see).  Python numbers (int and float) are
modelled as rationals: every operation the code performs on them here
(parsing decimal literals, comparison with 0, negation, multiplication by
1000) is exact in IEEE-754 semantics relative to the decimal values involved,
so `ℚ` is a faithful carrier for these claims.

Async functions are modelled as pure functions from their inputs plus the
behaviour of the awaited collaborator (an `Except Unit JVal`-valued function:
`.error` models the collaborator raising, `.ok r` models it returning `r`);
the result type records which outcome the Python coroutine produces
(returning a value, returning `None`, propagating an exception, or raising
the `RuntimeError` configuration guard).

`SENSOR_KEYS_MAP` (module `data_keys_map`, not part of the sources under
verification) is the static Sensor Alias Table of spec §3: a mapping from
canonical sensor name to an ordered list of alias keys.  Each embedded
function that reads `SENSOR_KEYS_MAP.get(name, [])` therefore takes the
resolved alias list (`keys : List String`) as a parameter; theorems quantify
over it.
-/

mutual
inductive JVal where
  | null : JVal
  | bool (b : Bool) : JVal
  | num (q : ℚ) : JVal
  | str (s : String) : JVal
  | arr (xs : JList) : JVal
  | obj (fs : JFields) : JVal

inductive JList where
  | nil : JList
  | cons (hd : JVal) (tl : JList) : JList

inductive JFields where
  | nil : JFields
  | cons (k : String) (v : JVal) (tl : JFields) : JFields
end

def JList.ofList : List JVal → JList
  | [] => .nil
  | x :: xs => .cons x (JList.ofList xs)

def JFields.ofList : List (String × JVal) → JFields
  | [] => .nil
  | (k, v) :: xs => .cons k v (JFields.ofList xs)

/-- First binding of a key in a field list (Python dicts have unique keys, so
"first" is "the" binding). `none` models `key not in d`. -/
def lookupField : JFields → String → Option JVal
  | .nil, _ => none
  | .cons k v rest, key => if k == key then some v else lookupField rest key

def JVal.isNull : JVal → Bool
  | .null => true
  | _ => false

/-- `isinstance(v, (dict, list))`. -/
def JVal.isContainer : JVal → Bool
  | .obj _ => true
  | .arr _ => true
  | _ => false

/-- Python truthiness of a JSON value (`if res:`). -/
def pyTruthy : JVal → Bool
  | .null => false
  | .bool b => b
  | .num q => !(q == 0)
  | .str s => !(s == "")
  | .arr .nil => false
  | .arr _ => true
  | .obj .nil => false
  | .obj _ => true

/-- `d.get(k)` on a dict, defaulting to `None`.  The code only applies `.get`
to values that are dicts (matches produced by `resolve_param` are always
dicts); on non-dicts Python would raise, which no claim exercises, and we
return `None`. -/
def JVal.get (v : JVal) (k : String) : JVal :=
  match v with
  | .obj fs =>
      match lookupField fs k with
      | some x => x
      | none => .null
  | _ => .null

/-- `d.get(k, dflt)`. -/
def JVal.getD (v : JVal) (k : String) (dflt : JVal) : JVal :=
  match v with
  | .obj fs =>
      match lookupField fs k with
      | some x => x
      | none => dflt
  | _ => dflt

/-- `str(v)` for the value shapes the code actually stringifies: strings,
`None`, booleans and integral numbers.  Python's repr of non-integral floats
and of containers is not modelled (no claim and no reachable code path here
stringifies one); we emit a placeholder for those. -/
def pyStr : JVal → String
  | .null => "None"
  | .bool true => "True"
  | .bool false => "False"
  | .num q => if q.den == 1 then toString q.num else toString q.num ++ "." ++ toString q.den
  | .str s => s
  | .arr _ => "<list>"
  | .obj _ => "<dict>"

/-- ASCII lower-casing, per character (the alias keys and labels this code
compares are ASCII; Python `str.lower` agrees on them). -/
def charLower (c : Char) : Char :=
  if 65 <= c.toNat && c.toNat <= 90 then Char.ofNat (c.toNat + 32) else c

/-- ASCII upper-casing, per character. -/
def charUpper (c : Char) : Char :=
  if 97 <= c.toNat && c.toNat <= 122 then Char.ofNat (c.toNat - 32) else c

/-- `s.lower()`. -/
def pyLower (s : String) : String := String.mk (s.toList.map charLower)

/-- `s.upper()`. -/
def pyUpper (s : String) : String := String.mk (s.toList.map charUpper)

def isSpaceChar (c : Char) : Bool :=
  c == ' ' || c.toNat == 9 || c.toNat == 10 || c.toNat == 13 || c.toNat == 11 || c.toNat == 12

def dropSpaceLeft : List Char → List Char
  | [] => []
  | c :: rest => if isSpaceChar c then dropSpaceLeft rest else c :: rest

/-- `s.strip()` (ASCII whitespace; the data carries no exotic unicode
whitespace). -/
def pyStrip (s : String) : String :=
  String.mk ((dropSpaceLeft (dropSpaceLeft s.toList.reverse).reverse))

/-- All keys of the first dict occur in the second
(half of Python's order-insensitive dict equality). -/
def keysSubset : JFields → JFields → Bool
  | .nil, _ => true
  | .cons k _ rest, b => (lookupField b k).isSome && keysSubset rest b

mutual
/-- Python `==` on JSON values: numeric types compare by value (booleans are
numeric: `True == 1`), strings by content, lists element-wise, dicts as
order-insensitive key→value mappings; values of different non-numeric kinds
are unequal (never an exception). -/
def pyEq : JVal → JVal → Bool
  | .null, .null => true
  | .bool a, .bool b => a == b
  | .bool a, .num n => (if a then (1 : ℚ) else 0) == n
  | .num n, .bool a => n == (if a then (1 : ℚ) else 0)
  | .num a, .num b => a == b
  | .str a, .str b => a == b
  | .arr a, .arr b => pyEqList a b
  | .obj a, .obj b => pyEqFields a b && keysSubset b a
  | _, _ => false
termination_by structural a b => a

def pyEqList : JList → JList → Bool
  | .nil, .nil => true
  | .cons x xs, .cons y ys => pyEq x y && pyEqList xs ys
  | _, _ => false
termination_by structural a b => a

def pyEqFields : JFields → JFields → Bool
  | .nil, _ => true
  | .cons k v rest, b =>
      (match lookupField b k with
       | some w => pyEq v w
       | none => false) && pyEqFields rest b
termination_by structural a b => a
end

/-- One condition entry (`key: value`) against one candidate dict: the key
must be present, and the values equal — lower-cased comparison when
case-insensitive mode is on and both sides are strings
(helpers.py `_matches_conditions`, the per-entry body). -/
def condEntryMatches (ci : Bool) (item : JFields) (k : String) (v : JVal) : Bool :=
  match lookupField item k with
  | none => false
  | some iv =>
      match ci, iv, v with
      | true, .str s, .str t => pyLower s == pyLower t
      | _, _, _ => pyEq iv v

/-- AND over the entries of one condition dict. -/
def condFieldsMatch (ci : Bool) (item : JFields) : JFields → Bool
  | .nil => true
  | .cons k v rest => condEntryMatches ci item k v && condFieldsMatch ci item rest

/-- OR over a list of condition dicts; non-dict list entries are skipped
(`if not isinstance(condition, dict): continue`). -/
def condListMatch (ci : Bool) (item : JFields) : JList → Bool
  | .nil => false
  | .cons c rest =>
      (match c with
       | .obj cf => condFieldsMatch ci item cf
       | _ => false) || condListMatch ci item rest

/-- helpers.py `_matches_conditions`: a list of dicts is OR-mode, a dict is
AND-mode, anything else matches nothing. -/
def matchesConditions (whereC : JVal) (ci : Bool) (item : JFields) : Bool :=
  match whereC with
  | .arr conds => condListMatch ci item conds
  | .obj cf => condFieldsMatch ci item cf
  | _ => false

mutual
/-- helpers.py `_search`, on one node.  State is the accumulated `found`
list; the returned Bool is `_search`'s return value (`True` = stop the whole
search, only ever produced when `find_all` is false).  A dict node is tested
itself first; a match is appended and, unless `find_all`, stops the search;
then the search descends into dict/list children in insertion order. -/
def searchVal (w : JVal) (ci fa : Bool) : JVal → List JVal → List JVal × Bool
  | .obj fs, found =>
      if matchesConditions w ci fs then
        let found2 := found ++ [JVal.obj fs]
        if !fa then (found2, true)
        else searchFields w ci fa fs found2
      else searchFields w ci fa fs found
  | .arr xs, found => searchItems w ci fa xs found
  | _, found => (found, false)
termination_by structural t found => t

/-- The `for v in current.values()` loop: descend only into values that are
themselves dicts or lists; propagate an early stop when `find_all` is off. -/
def searchFields (w : JVal) (ci fa : Bool) : JFields → List JVal → List JVal × Bool
  | .nil, found => (found, false)
  | .cons _ v rest, found =>
      if v.isContainer then
        match searchVal w ci fa v found with
        | (found2, stop) =>
            if stop && !fa then (found2, true)
            else searchFields w ci fa rest found2
      else searchFields w ci fa rest found
termination_by structural t found => t

/-- The `for item in current` loop over a list node. -/
def searchItems (w : JVal) (ci fa : Bool) : JList → List JVal → List JVal × Bool
  | .nil, found => (found, false)
  | .cons v rest, found =>
      if v.isContainer then
        match searchVal w ci fa v found with
        | (found2, stop) =>
            if stop && !fa then (found2, true)
            else searchItems w ci fa rest found2
      else searchItems w ci fa rest found
termination_by structural t found => t
end

/-- The `root_keys` loop: each named top-level field searched independently,
in the given order, into one shared `found` accumulator (the loop ignores
`_search`'s stop flag across root keys). -/
def searchRoots (w : JVal) (ci fa : Bool) (fs : JFields) : List String → List JVal → List JVal
  | [], found => found
  | k :: ks, found =>
      match lookupField fs k with
      | some v => searchRoots w ci fa fs ks (searchVal w ci fa v found).1
      | none => searchRoots w ci fa fs ks found

/-- helpers.py `resolve_param`.  Python's `None` default and list-of-matches
result are both `JVal`s here (`.null` / `.arr`). -/
def resolve_param (data whereC : JVal) (ci findAll : Bool) (default : JVal)
    (rootKeys : Option (List String)) : JVal :=
  let found :=
    match rootKeys, data with
    | some ks, .obj fs => searchRoots whereC ci findAll fs ks []
    | _, _ => (searchVal whereC ci findAll data []).1
  if findAll then
    match found with
    | [] => default
    | _ => .arr (JList.ofList found)
  else
    match found with
    | [] => default
    | x :: _ => x

mutual
/-- Specification-side collector (spec §4.1/§8): every node satisfying the
condition, in depth-first document order — a mapping node itself first, then
its mapping/sequence children in insertion order, then later siblings. -/
def dfsMatches (w : JVal) (ci : Bool) : JVal → List JVal
  | .obj fs =>
      (if matchesConditions w ci fs then [JVal.obj fs] else []) ++ dfsFields w ci fs
  | .arr xs => dfsItems w ci xs
  | _ => []

def dfsFields (w : JVal) (ci : Bool) : JFields → List JVal
  | .nil => []
  | .cons _ v rest =>
      (if v.isContainer then dfsMatches w ci v else []) ++ dfsFields w ci rest

def dfsItems (w : JVal) (ci : Bool) : JList → List JVal
  | .nil => []
  | .cons v rest =>
      (if v.isContainer then dfsMatches w ci v else []) ++ dfsItems w ci rest
end

mutual
theorem searchVal_true_eq (w : JVal) (ci : Bool) (t : JVal) :
    ∀ found, searchVal w ci true t found = (found ++ dfsMatches w ci t, false) := by
  intro found
  cases t with
  | obj fs =>
      simp only [searchVal, dfsMatches]
      by_cases h : matchesConditions w ci fs = true
      · simp [h, searchFields_true_eq w ci fs]
      · simp [h, searchFields_true_eq w ci fs]
  | arr xs =>
      simp only [searchVal, dfsMatches]
      exact searchItems_true_eq w ci xs found
  | null => simp [searchVal, dfsMatches]
  | bool b => simp [searchVal, dfsMatches]
  | num q => simp [searchVal, dfsMatches]
  | str s => simp [searchVal, dfsMatches]

theorem searchFields_true_eq (w : JVal) (ci : Bool) (fs : JFields) :
    ∀ found, searchFields w ci true fs found = (found ++ dfsFields w ci fs, false) := by
  intro found
  cases fs with
  | nil => simp [searchFields, dfsFields]
  | cons k v rest =>
      simp only [searchFields, dfsFields]
      by_cases h : v.isContainer = true
      · simp [h, searchVal_true_eq w ci v, searchFields_true_eq w ci rest]
      · simp [h, searchFields_true_eq w ci rest]

theorem searchItems_true_eq (w : JVal) (ci : Bool) (xs : JList) :
    ∀ found, searchItems w ci true xs found = (found ++ dfsItems w ci xs, false) := by
  intro found
  cases xs with
  | nil => simp [searchItems, dfsItems]
  | cons v rest =>
      simp only [searchItems, dfsItems]
      by_cases h : v.isContainer = true
      · simp [h, searchVal_true_eq w ci v, searchItems_true_eq w ci rest]
      · simp [h, searchItems_true_eq w ci rest]
end

/-- Outcome of an early-stopping search expressed against the full match
list: stop at the first match, if any. -/
def firstStop (found : List JVal) (ms : List JVal) : List JVal × Bool :=
  match ms with
  | [] => (found, false)
  | x :: _ => (found ++ [x], true)

mutual
theorem searchVal_false_eq (w : JVal) (ci : Bool) (t : JVal) :
    ∀ found, searchVal w ci false t found = firstStop found (dfsMatches w ci t) := by
  intro found
  cases t with
  | obj fs =>
      simp only [searchVal, dfsMatches]
      by_cases h : matchesConditions w ci fs = true
      · simp [h, firstStop]
      · simp [h, searchFields_false_eq w ci fs]
  | arr xs =>
      simp only [searchVal, dfsMatches]
      exact searchItems_false_eq w ci xs found
  | null => simp [searchVal, dfsMatches, firstStop]
  | bool b => simp [searchVal, dfsMatches, firstStop]
  | num q => simp [searchVal, dfsMatches, firstStop]
  | str s => simp [searchVal, dfsMatches, firstStop]

theorem searchFields_false_eq (w : JVal) (ci : Bool) (fs : JFields) :
    ∀ found, searchFields w ci false fs found = firstStop found (dfsFields w ci fs) := by
  intro found
  cases fs with
  | nil => simp [searchFields, dfsFields, firstStop]
  | cons k v rest =>
      simp only [searchFields, dfsFields]
      by_cases h : v.isContainer = true
      · rw [searchVal_false_eq w ci v found]
        cases hm : dfsMatches w ci v with
        | nil => simp [h, hm, firstStop, searchFields_false_eq w ci rest]
        | cons x xs => simp [h, hm, firstStop]
      · simp [h, searchFields_false_eq w ci rest]

theorem searchItems_false_eq (w : JVal) (ci : Bool) (xs : JList) :
    ∀ found, searchItems w ci false xs found = firstStop found (dfsItems w ci xs) := by
  intro found
  cases xs with
  | nil => simp [searchItems, dfsItems, firstStop]
  | cons v rest =>
      simp only [searchItems, dfsItems]
      by_cases h : v.isContainer = true
      · rw [searchVal_false_eq w ci v found]
        cases hm : dfsMatches w ci v with
        | nil => simp [h, hm, firstStop, searchItems_false_eq w ci rest]
        | cons x ys => simp [h, hm, firstStop]
      · simp [h, searchItems_false_eq w ci rest]
end

/-- Numeric value of a digit string, in ℕ. -/
def digitsNat (cs : List Char) : Nat :=
  cs.foldl (fun n c => n * 10 + (c.toNat - 48)) 0

/-- Multiplication on ℚ through `mkRat` (definitionally kernel-evaluable;
equal to `HMul.hMul` by `ratMul_eq` below — used wherever the Python code
multiplies floats, to keep the embedding executable inside proofs). -/
def ratMul (a b : ℚ) : ℚ := mkRat (a.num * b.num) (a.den * b.den)

theorem ratMul_eq (a b : ℚ) : ratMul a b = a * b := by
  unfold ratMul
  rw [Rat.mkRat_eq_div]
  push_cast
  rw [← div_mul_div_comm, Rat.num_div_den, Rat.num_div_den]

def takeDigits : List Char → List Char × List Char
  | [] => ([], [])
  | c :: rest =>
      if c.isDigit then
        match takeDigits rest with
        | (ds, rs) => (c :: ds, rs)
      else ([], c :: rest)

/-- Python `float(s)` on the plain decimal literal forms the snapshots carry
(optional sign, digits, optional fraction part; leading/trailing whitespace
stripped, as `float` does).  Exponent forms, `inf`/`nan` and digit
underscores do not occur in this code's data and are not modelled (they
yield `none`, i.e. are treated like a parse failure). -/
def pyFloat? (s : String) : Option ℚ :=
  let cs := (pyStrip s).toList
  let signed : Int × List Char :=
    match cs with
    | c :: rest =>
        if c == '-' then (-1, rest)
        else if c == '+' then (1, rest)
        else (1, c :: rest)
    | [] => (1, [])
  let sign := signed.1
  match takeDigits signed.2 with
  | (ipart, rest1) =>
      match rest1 with
      | [] => if ipart.isEmpty then none else some (mkRat (sign * digitsNat ipart) 1)
      | c :: rest2 =>
          if c == '.' then
            match takeDigits rest2 with
            | (fpart, rest3) =>
                if rest3.isEmpty && !(ipart.isEmpty && fpart.isEmpty) then
                  some (mkRat
                    (sign * (digitsNat ipart * 10 ^ fpart.length + digitsNat fpart))
                    (10 ^ fpart.length))
                else none
          else none

/-- helpers.py `safe_float`: `float(val) if val is not None else default`,
with `ValueError`/`TypeError` mapped to the default.  `float` of a bool or a
number succeeds; of a non-numeric string or a container it raises. -/
def safe_float (val : JVal) (default : ℚ) : ℚ :=
  match val with
  | .null => default
  | .num q => q
  | .bool b => if b then 1 else 0
  | .str s =>
      match pyFloat? s with
      | some q => q
      | none => default
  | _ => default

/-- The one-field condition dict `{field: key}` used by every caller of
`resolve_param` in helpers.py. -/
def cond1 (field : String) (key : String) : JVal :=
  .obj (.cons field (.str key) .nil)

/-- `resolve_param(data, {"id": key}, case_insensitive=True)`. -/
def idMatch (data : JVal) (key : String) : JVal :=
  resolve_param data (cond1 "id" key) true false .null none

/-- `resolve_param(data, {"par": key}, case_insensitive=True)`. -/
def parMatch (data : JVal) (key : String) : JVal :=
  resolve_param data (cond1 "par" key) true false .null none

/-- Tier 1 of `get_sensor_value_simple`'s loop body: the id-keyed match's
`val`, or `None` if there is no truthy match or its `val` is `None`. -/
def sensorTierId (data : JVal) (key : String) : JVal :=
  let res := idMatch data key
  if pyTruthy res then res.get "val" else .null

/-- Tier 2: the par-keyed match's `val`, guarded by the validity flag
`res.get("status", 1) != 0`; `None` when there is no truthy match, the
status equals 0, or `val` is `None`. -/
def sensorTierPar (data : JVal) (key : String) : JVal :=
  let res := parMatch data key
  if pyTruthy res then
    if pyEq (res.getD "status" (.num 1)) (.num 0) then .null
    else res.get "val"
  else .null

/-- `(data.get('device_extra') or {}).get('ctrl_values') or {}`.  (Python
would raise if `device_extra` were a truthy non-dict; spec §3 fixes
`device_extra.ctrl_values` to be a mapping, and no claim leaves that shape.) -/
def ctrlValuesOf (data : JVal) : JVal :=
  let de := data.get "device_extra"
  let de2 := if pyTruthy de then de else .obj .nil
  let cv := de2.get "ctrl_values"
  if pyTruthy cv then cv else .obj .nil

/-- Tier 3: `if key in ctrl_values and ctrl_values.get(key) is not None:
return str(ctrl_values.get(key))`, else `None`. -/
def sensorTierCtrl (ctrlValues : JVal) (key : String) : JVal :=
  match ctrlValues with
  | .obj fs =>
      match lookupField fs key with
      | some v => if v.isNull then .null else .str (pyStr v)
      | none => .null
  | _ => .null

/-- helpers.py `get_sensor_value_simple`: for each alias in order, try the
three tiers in order, returning at the first non-`None` value; `None` when
the alias list is exhausted.  (The Python function takes the canonical name
and reads `SENSOR_KEYS_MAP`; see the header — `keys` is that alias list.) -/
def get_sensor_value_simple (keys : List String) (data : JVal) : JVal :=
  match keys with
  | [] => .null
  | key :: rest =>
      let v1 := sensorTierId data key
      if !v1.isNull then v1
      else
        let v2 := sensorTierPar data key
        if !v2.isNull then v2
        else
          let v3 := sensorTierCtrl (ctrlValuesOf data) key
          if !v3.isNull then v3
          else get_sensor_value_simple rest data

/-- Entry form, id tier: `(res.get("id"), val, res.get("unit", None))` when
the id-keyed match has a non-`None` `val`. -/
def sensorEntryTierId (data : JVal) (key : String) : Option (JVal × JVal × JVal) :=
  let res := idMatch data key
  if pyTruthy res then
    let val := res.get "val"
    if !val.isNull then some (res.get "id", val, res.getD "unit" .null) else none
  else none

/-- Entry form, par tier: skipped entirely when `res.get("status", 1) == 0`
(the `continue`), else `(res.get("par"), val, res.get("unit", None))` for a
non-`None` `val`. -/
def sensorEntryTierPar (data : JVal) (key : String) : Option (JVal × JVal × JVal) :=
  let res := parMatch data key
  if pyTruthy res then
    if pyEq (res.getD "status" (.num 1)) (.num 0) then none
    else
      let val := res.get "val"
      if !val.isNull then some (res.get "par", val, res.getD "unit" .null) else none
  else none

/-- helpers.py `get_sensor_value_simple_entry`: like the simple form but
without the control-value tier, returning the matched field, value and unit. -/
def get_sensor_value_simple_entry (keys : List String) (data : JVal) :
    Option (JVal × JVal × JVal) :=
  match keys with
  | [] => none
  | key :: rest =>
      match sensorEntryTierId data key with
      | some r => some r
      | none =>
          match sensorEntryTierPar data key with
          | some r => some r
          | none => get_sensor_value_simple_entry rest data

/-- One probe of `resolve_ctrl_field_id`'s loop body:
`res = resolve_param(ctrl_fields, {field: key}, case_insensitive=True);
if res and res.get("id"): return str(res.get("id"))`. -/
def ctrlFieldHit (ctrl_fields : JVal) (field : String) (key : String) : Option String :=
  let res := resolve_param ctrl_fields (cond1 field key) true false .null none
  if pyTruthy res && pyTruthy (res.get "id") then some (pyStr (res.get "id")) else none

/-- helpers.py `resolve_ctrl_field_id`: per alias, probe the schema by `id`,
then `name`, then `par`; return the first truthy descriptor id, stringified.
(`keys` is the `SENSOR_KEYS_MAP` alias list, as in the header.) -/
def resolve_ctrl_field_id (keys : List String) (ctrl_fields : JVal) : Option String :=
  match keys with
  | [] => none
  | key :: rest =>
      match ctrlFieldHit ctrl_fields "id" key with
      | some s => some s
      | none =>
          match ctrlFieldHit ctrl_fields "name" key with
          | some s => some s
          | none =>
              match ctrlFieldHit ctrl_fields "par" key with
              | some s => some s
              | none => resolve_ctrl_field_id rest ctrl_fields

/-- The fixed short/long vendor-spelling table of
`normalize_output_priority_label`. -/
def map_code : String → Option String
  | "UTILITY FIRST" => some "Utility"
  | "UTILITY" => some "Utility"
  | "UTI" => some "Utility"
  | "SOLAR FIRST" => some "Solar"
  | "SOLAR" => some "Solar"
  | "SOL" => some "Solar"
  | "SBU FIRST" => some "SBU"
  | "SBU" => some "SBU"
  | "SUB" => some "SUB"
  | "SUF" => some "SUF"
  | _ => none

/-- `str(value).strip().upper()` mapped through the table, unrecognized codes
passing through unchanged. -/
def normalize_label_str (s : String) : String :=
  let u := pyUpper (pyStrip s)
  match map_code u with
  | some m => m
  | none => u

/-- helpers.py `normalize_output_priority_label`: `None` stays `None`,
anything else is stringified, trimmed, upper-cased and mapped. -/
def normalize_output_priority_label (value : JVal) : Option String :=
  match value with
  | .null => none
  | v => some (normalize_label_str (pyStr v))

/-- A control-write collaborator (`set_ctrl_device_param`), reduced to the
arguments the core computes: parameter id and encoded value.  `.error`
models the awaited call raising, `.ok r` models it returning `r`.  (`token`,
`secret` and `device_data` are passed through untouched and are dropped.) -/
def Collab : Type := String → String → Except Unit JVal

/-- Result of one Python call of an orchestrator coroutine. -/
inductive WriteResult where
  | configError : WriteResult
  | ok (r : JVal) : WriteResult
  | retNone : WriteResult
  | raised : WriteResult

/-- Outcome of the guarded schema-driven block (`try: ... except Exception:
pass`) inside `set_inverter_output_priority`: it either returned the
collaborator's result, fell through without an exception (no resolvable
param id / empty falsy id / no acceptable item / `break` on a `None` item
key), or an exception was raised inside it (modelled source: the awaited
collaborator call). -/
inductive AttemptOutcome where
  | returned (r : JVal) : AttemptOutcome
  | fellThrough : AttemptOutcome
  | raisedAttempt : AttemptOutcome

/-- `resolve_param(ctrl_fields, {"id": param_id}, case_insensitive=True) or \x7b\x7d`. -/
def schemaEntry (ctrl_fields : JVal) (param_id : String) : JVal :=
  let r := resolve_param ctrl_fields (cond1 "id" param_id) true false .null none
  if pyTruthy r then r else .obj .nil

/-- `ctrl_field_entry.get("item") or []`, as the list iterated over.  (A
truthy non-list `item` field would make the Python `for` raise, which the
surrounding `except` turns into the same fall-through this yields.) -/
def itemsOf (entry : JVal) : JList :=
  match entry.get "item" with
  | .arr xs => xs
  | _ => .nil

/-- The `has_sub` scan: some item's `val` canonicalizes to `"SUB"`. -/
def hasSubItem : JList → Bool
  | .nil => false
  | .cons item rest =>
      (match normalize_output_priority_label (item.get "val") with
       | some l => l == "SUB"
       | none => false) || hasSubItem rest

/-- `wanted_candidates`: the canonicalized desired label, plus `"Utility"`
exactly when the desired label is `SUB` and no item canonicalizes to `SUB`. -/
def wantedCandidates (value : String) (items : JList) : List String :=
  let wanted := normalize_label_str value
  if wanted == "SUB" && !hasSubItem items then [wanted, "Utility"] else [wanted]

/-- `normalize_output_priority_label(item.get("val")) in wanted_candidates`
(Python `None` is never in a list of strings). -/
def itemAccepted (accepted : List String) (item : JVal) : Bool :=
  match normalize_output_priority_label (item.get "val") with
  | some l => accepted.contains l
  | none => false

/-- The item scan of the schema-driven write: skip items whose canonicalized
`val` is not accepted; at the first accepted item return its `key` field
(`.null`, i.e. Python `None`, triggers the `break`). -/
def scanItems (accepted : List String) : JList → Option JVal
  | .nil => none
  | .cons item rest =>
      if itemAccepted accepted item then some (item.get "key")
      else scanItems accepted rest

/-- The schema-driven block of `set_inverter_output_priority` (the body of
its `try:`), given a non-`None` `ctrl_fields`. -/
def schemaAttempt (collab : Collab) (keysOPO : List String) (value : String)
    (ctrl_fields : JVal) : AttemptOutcome :=
  match resolve_ctrl_field_id keysOPO ctrl_fields with
  | none => .fellThrough
  | some param_id =>
      if param_id == "" then .fellThrough
      else
        let items := itemsOf (schemaEntry ctrl_fields param_id)
        match scanItems (wantedCandidates value items) items with
        | none => .fellThrough
        | some .null => .fellThrough
        | some k =>
            match collab param_id (pyStr k) with
            | .ok r => .returned r
            | .error _ => .raisedAttempt

def map2341 : String → Option String
  | "Utility" => some "0"
  | "SUB" => some "0"
  | "Solar" => some "1"
  | "SBU" => some "2"
  | _ => none

def map2428 : String → Option String
  | "Utility" => some "12336"
  | "SUB" => some "12336"
  | "Solar" => some "12337"
  | "SBU" => some "12338"
  | _ => none

def map2376 : String → Option String
  | "Utility" => some "0"
  | "Solar" => some "1"
  | "SBU" => some "2"
  | "SUB" => some "3"
  | "SUF" => some "4"
  | _ => none

/-- `await set_ctrl_device_param(...)` outside the `try:`: a raise
propagates. -/
def callWrite (collab : Collab) (param_id param_value : String) : WriteResult :=
  match collab param_id param_value with
  | .ok r => .ok r
  | .error _ => .raised

/-- The `match device_data['devcode']` block: a fixed label→encoded-value map
per model code; a miss in the map, or an unrecognized model code, returns
`None` without calling the collaborator. -/
def hardcodedFallback (collab : Collab) (devcode : Int) (value : String) : WriteResult :=
  if devcode == 2341 then
    match map2341 value with
    | none => .retNone
    | some pv => callWrite collab "los_output_source_priority" pv
  else if devcode == 2428 then
    match map2428 value with
    | none => .retNone
    | some pv => callWrite collab "bse_output_source_priority" pv
  else if devcode == 2376 then
    match map2376 value with
    | none => .retNone
    | some pv => callWrite collab "bse_eybond_ctrl_49" pv
  else .retNone

/-- helpers.py `set_inverter_output_priority`.  `collab?` is the module
global `set_ctrl_device_param` (`none` = the import failed and the global is
`None`, in which case the guard raises `RuntimeError`).  `devcode` is
`device_data['devcode']`. -/
def set_inverter_output_priority (collab? : Option Collab) (keysOPO : List String)
    (devcode : Int) (value : String) (ctrl_fields : Option JVal) : WriteResult :=
  match collab? with
  | none => .configError
  | some collab =>
      let attempt :=
        match ctrl_fields with
        | some cf => schemaAttempt collab keysOPO value cf
        | none => .fellThrough
      match attempt with
      | .returned r => .ok r
      | _ => hardcodedFallback collab devcode value

/-- Result of one Python call of a read-flow coroutine. -/
inductive ReadResult where
  | configError : ReadResult
  | value (v : JVal) : ReadResult
  | raised : ReadResult

/-- `_normalize_key` on a string: strip, and if `float(s)` succeeds and is
integral, `str(int(f))`; otherwise the stripped string itself. -/
def normalizeKeyStr (s : String) : String :=
  let t := pyStrip s
  match pyFloat? t with
  | some q => if q.den == 1 then toString q.num else t
  | none => t

/-- The `item_key_to_val` dict build: per dict item, `str(key).strip().upper()
→ str(val).strip().upper()`; a non-dict item raises inside the loop's `try`
and is skipped.  Later assignments win, so entries are prepended and looked
up front-first. -/
def buildItemDict : JList → List (String × String) → List (String × String)
  | .nil, acc => acc
  | .cons item rest, acc =>
      match item with
      | .obj _ =>
          buildItemDict rest
            ((pyUpper (pyStrip (pyStr (item.get "key"))),
              pyUpper (pyStrip (pyStr (item.get "val")))) :: acc)
      | _ => buildItemDict rest acc

/-- `d.get(k, dflt)` on the item dictionary. -/
def dictGetD (d : List (String × String)) (k : String) (dflt : String) : String :=
  match d with
  | [] => dflt
  | (k2, v) :: rest => if k2 == k then v else dictGetD rest k dflt

/-- helpers.py `get_inverter_output_priority`.  `collabRead?` is the module
global `get_device_ctrl_value`; its behaviour is a function from the
resolved parameter id (the only argument the core computes). -/
def get_inverter_output_priority (collabRead? : Option (String → Except Unit JVal))
    (keysOPO : List String) (ctrl_fields : JVal) : ReadResult :=
  match collabRead? with
  | none => .configError
  | some ctrlRead =>
      match resolve_ctrl_field_id keysOPO ctrl_fields with
      | none => .value .null
      | some param_id =>
          let dict := buildItemDict (itemsOf (schemaEntry ctrl_fields param_id)) []
          match ctrlRead param_id with
          | .error _ => .raised
          | .ok result =>
              let raw :=
                match result with
                | .obj _ => result.get "val"
                | _ => .null
              if raw.isNull then .value .null
              else
                let raw_u := pyUpper (pyStrip (normalizeKeyStr (pyStr raw)))
                let code := dictGetD dict raw_u raw_u
                match normalize_output_priority_label (.str code) with
                | some n => .value (.str n)
                | none => .value (.str code)

/-- helpers.py `get_direct_data`.  `sendCmd?` is the module global
`send_device_direct_command`.  Modelled from the spec: the binary
command-hex encoder `get_command_hex` and decoder `decode_direct_response`
(module `direct_commands`, out of scope per spec §1/§6) are opaque
parameters. -/
def get_direct_data (sendCmd? : Option (String → Except Unit JVal))
    (commandHex : String → String) (decode : String → JVal → JVal)
    (cmd_name : String) : ReadResult :=
  match sendCmd? with
  | none => .configError
  | some sendCmd =>
      match sendCmd (commandHex cmd_name) with
      | .error _ => .raised
      | .ok result => .value (decode cmd_name (result.get "dat"))

/-- The three module globals of helpers.py, as set by its guarded import:
either the import succeeds and all three collaborators are present, or
`ModuleNotFoundError` is caught and all three are set to `None` together. -/
structure ApiModule where
  setCtrl : Option Collab
  getCtrl : Option (String → Except Unit JVal)
  sendCmd : Option (String → Except Unit JVal)

/-- The `try: from ... import ... except ModuleNotFoundError:` initializer. -/
def apiModuleInit (importOk : Bool) (f : Collab)
    (g h : String → Except Unit JVal) : ApiModule :=
  if importOk then ⟨some f, some g, some h⟩ else ⟨none, none, none⟩

/-- data_resolvers.py `resolve_battery_charging_current`:
`max(safe_float(raw), 0.0)`. -/
def resolve_battery_charging_current (keys : List String) (data : JVal) : ℚ :=
  max (safe_float (get_sensor_value_simple keys data) 0) 0

/-- data_resolvers.py `resolve_battery_charging_voltage`. -/
def resolve_battery_charging_voltage (keys : List String) (data : JVal) : ℚ :=
  safe_float (get_sensor_value_simple keys data) 0

/-- data_resolvers.py `resolve_battery_voltage`. -/
def resolve_battery_voltage (keys : List String) (data : JVal) : ℚ :=
  safe_float (get_sensor_value_simple keys data) 0

/-- data_resolvers.py `resolve_battery_discharge_current`: nothing resolved →
0.0; matched key equal (Python `==`) to one of the two special aliases →
negative-current-only (`abs(value) if value < 0 else 0.0`); any other key →
the parsed value as-is. -/
def resolve_battery_discharge_current (keys : List String) (data : JVal) : ℚ :=
  match get_sensor_value_simple_entry keys data with
  | none => 0
  | some (key, rawVal, _unit) =>
      let value := safe_float rawVal 0
      if pyEq key (.str "bt_eybond_read_29") || pyEq key (.str "Battery Current") then
        if value < 0 then |value| else 0
      else value

/-- data_resolvers.py `resolve_battery_charging_power`: direct active-power
reading (kW-scaled when the matched unit is `"kW"`, positive part), else
`current × voltage` with the charging voltage falling back to the generic
battery voltage when falsy (`or`). -/
def resolve_battery_charging_power (keysBAP keysBCC keysBCV keysBV : List String)
    (data : JVal) : ℚ :=
  match get_sensor_value_simple_entry keysBAP data with
  | some (_key, rawVal, unit) =>
      let value := safe_float rawVal 0
      let value2 := if pyEq unit (.str "kW") then ratMul value 1000 else value
      if value2 > 0 then value2 else 0
  | none =>
      let current := resolve_battery_charging_current keysBCC data
      let chv := resolve_battery_charging_voltage keysBCV data
      let voltage := if chv == 0 then resolve_battery_voltage keysBV data else chv
      ratMul current voltage

/-- data_resolvers.py `resolve_battery_discharge_power` (sign mirror of the
charging form). -/
def resolve_battery_discharge_power (keysBAP keysBDC keysBV : List String)
    (data : JVal) : ℚ :=
  match get_sensor_value_simple_entry keysBAP data with
  | some (_key, rawVal, unit) =>
      let value := safe_float rawVal 0
      let value2 := if pyEq unit (.str "kW") then ratMul value 1000 else value
      if value2 < 0 then |value2| else 0
  | none =>
      ratMul (resolve_battery_discharge_current keysBDC data)
        (resolve_battery_voltage keysBV data)

/-- data_resolvers.py `resolve_pv_power`: `None` when nothing resolved, else
the parsed value, ×1000 when the matched unit is `"kW"`. -/
def resolve_pv_power (keys : List String) (data : JVal) : Option ℚ :=
  match get_sensor_value_simple_entry keys data with
  | none => none
  | some (_key, rawVal, unit) =>
      let val := safe_float rawVal 0
      some (if pyEq unit (.str "kW") then ratMul val 1000 else val)

/-- data_resolvers.py `resolve_active_load_power`:
`safe_float(get_sensor_value_simple(...)) * 1000`, with no unit check. -/
def resolve_active_load_power (keys : List String) (data : JVal) : ℚ :=
  ratMul (safe_float (get_sensor_value_simple keys data) 0) 1000

/-- Modelled from the spec: the Sensor Alias Table entry for the logical
control "output_priority_option" (module `data_keys_map` is not among the
sources).  Per spec §4.4/§8 the same alias list resolves control id
`bse_eybond_ctrl_49` on the model-2376 schema and
`bse_output_source_priority` on the model-2428 schema, so it contains both
descriptor ids. -/
def specKeysOPO : List String :=
  ["los_output_source_priority", "bse_output_source_priority", "bse_eybond_ctrl_49"]

/-- Modelled from the spec (§8): the model-2428 control-field schema (the
repository's `tests/devcodes/2428/queryDeviceCtrlField.json` is not among
the sources).  Its output-priority descriptor has id
`bse_output_source_priority` and an item list with no distinct SUB entry;
the labels canonicalize to Utility, Solar, SBU with encoded keys
12336, 12337, 12338 — the same encoding as helpers.py's hardcoded
model-2428 fallback map. -/
def ctrlFields2428 : JVal :=
  .arr (JList.ofList
    [ .obj (JFields.ofList
        [ ("id", .str "bse_output_source_priority")
        , ("item", .arr (JList.ofList
            [ .obj (JFields.ofList [("key", .str "12336"), ("val", .str "UTI")])
            , .obj (JFields.ofList [("key", .str "12337"), ("val", .str "SOL")])
            , .obj (JFields.ofList [("key", .str "12338"), ("val", .str "SBU")])
            ]))
        ])
    ])

/-- Modelled from the spec (§8): the model-2376 control-field schema (the
repository's `tests/devcodes/2376/queryDeviceCtrlField.json` is not among
the sources): descriptor id `bse_eybond_ctrl_49`, items keyed `"0"`..`"4"`
with labels UTI/SOL/SBU/SUB/SUF — the same encoding as helpers.py's
hardcoded model-2376 fallback map. -/
def ctrlFields2376 : JVal :=
  .arr (JList.ofList
    [ .obj (JFields.ofList
        [ ("id", .str "bse_eybond_ctrl_49")
        , ("item", .arr (JList.ofList
            [ .obj (JFields.ofList [("key", .str "0"), ("val", .str "UTI")])
            , .obj (JFields.ofList [("key", .str "1"), ("val", .str "SOL")])
            , .obj (JFields.ofList [("key", .str "2"), ("val", .str "SBU")])
            , .obj (JFields.ofList [("key", .str "3"), ("val", .str "SUB")])
            , .obj (JFields.ofList [("key", .str "4"), ("val", .str "SUF")])
            ]))
        ])
    ])

/-- A collaborator that records its arguments in its result, to observe which
parameter id and encoded value a write resolves to. -/
def recordCollab : Collab :=
  fun pid v => .ok (.arr (JList.ofList [.str pid, .str v]))

/-- A collaborator whose awaited call always raises. -/
def raisingCollab : Collab := fun _ _ => .error ()

/-- C2: For every tree and condition, when no node satisfies the condition
the tree-matcher search returns the caller-supplied default, both with
findAll=false and findAll=true; when matches exist, findAll=true returns
every matching mapping node in depth-first document order (the `dfsMatches`
sequence) and findAll=false returns exactly the first element of that
sequence. -/
theorem resolve_param_search_contract (t w : JVal) (ci : Bool) (d : JVal) :
    (dfsMatches w ci t = [] →
      resolve_param t w ci true d none = d ∧ resolve_param t w ci false d none = d)
    ∧ (∀ x xs, dfsMatches w ci t = x :: xs →
      resolve_param t w ci true d none = .arr (JList.ofList (x :: xs))
      ∧ resolve_param t w ci false d none = x) := by
  constructor
  · intro h
    constructor
    · simp [resolve_param, searchVal_true_eq, h]
    · simp [resolve_param, searchVal_false_eq, h, firstStop]
  · intro x xs h
    constructor
    · simp [resolve_param, searchVal_true_eq, h]
    · simp [resolve_param, searchVal_false_eq, h, firstStop]

/-- Witness for C2: a one-node tree matching its own one-field condition has
exactly one depth-first match; findAll=true returns the singleton list and
findAll=false returns the node itself. -/
theorem resolve_param_search_contract_witness :
    resolve_param (cond1 "id" "a") (cond1 "id" "a") false true .null none
        = .arr (JList.ofList [cond1 "id" "a"])
      ∧ resolve_param (cond1 "id" "a") (cond1 "id" "a") false false .null none
        = cond1 "id" "a" :=
  (resolve_param_search_contract (cond1 "id" "a") (cond1 "id" "a") false .null).2
    (cond1 "id" "a") [] rfl

/-- A snapshot in which the same alias `k` has both an id-keyed entry (value
"A") and a par-keyed, valid entry (value "B") that disagree; the par entry
comes first in document order, and the control-value cache also carries `k`. -/
def disagreeData : JVal :=
  .obj (JFields.ofList
    [ ("pars", .arr (JList.ofList
        [ .obj (JFields.ofList
            [("par", .str "k"), ("val", .str "B"), ("status", .num 1)])
        , .obj (JFields.ofList [("id", .str "k"), ("val", .str "A")])
        ]))
    , ("device_extra", .obj (JFields.ofList
        [("ctrl_values", .obj (JFields.ofList [("k", .str "C")]))]))
    ])

/-- C1: `get_sensor_value_simple` iterates the alias list in table order and,
per alias, tries the three tiers in order id-match (`sensorTierId`),
par-match with validity flag (`sensorTierPar`), control-value cache
(`sensorTierCtrl`): the first tier with a non-`None` value wins outright —
in particular an id-keyed entry's value is returned whatever any par-keyed
entry for the same alias holds — and the next alias is consulted only after
all three tiers of the current alias produced `None`. -/
theorem get_sensor_value_simple_alias_precedence (data : JVal) (key : String)
    (rest : List String) :
    ((sensorTierId data key).isNull = false →
      get_sensor_value_simple (key :: rest) data = sensorTierId data key)
    ∧ (sensorTierId data key = .null → (sensorTierPar data key).isNull = false →
      get_sensor_value_simple (key :: rest) data = sensorTierPar data key)
    ∧ (sensorTierId data key = .null → sensorTierPar data key = .null →
        (sensorTierCtrl (ctrlValuesOf data) key).isNull = false →
      get_sensor_value_simple (key :: rest) data = sensorTierCtrl (ctrlValuesOf data) key)
    ∧ (sensorTierId data key = .null → sensorTierPar data key = .null →
        sensorTierCtrl (ctrlValuesOf data) key = .null →
      get_sensor_value_simple (key :: rest) data = get_sensor_value_simple rest data)
    ∧ get_sensor_value_simple [] data = .null := by
  refine ⟨?_, ?_, ?_, ?_, ?_⟩
  · intro h1
    simp [get_sensor_value_simple, h1]
  · intro h1 h2
    have h1x : (sensorTierId data key).isNull = true := by rw [h1]; rfl
    simp [get_sensor_value_simple, h1x, h2]
  · intro h1 h2 h3
    have h1x : (sensorTierId data key).isNull = true := by rw [h1]; rfl
    have h2x : (sensorTierPar data key).isNull = true := by rw [h2]; rfl
    simp [get_sensor_value_simple, h1x, h2x, h3]
  · intro h1 h2 h3
    have h1x : (sensorTierId data key).isNull = true := by rw [h1]; rfl
    have h2x : (sensorTierPar data key).isNull = true := by rw [h2]; rfl
    have h3x : (sensorTierCtrl (ctrlValuesOf data) key).isNull = true := by rw [h3]; rfl
    simp [get_sensor_value_simple, h1x, h2x, h3x]
  · simp [get_sensor_value_simple]

/-- Witness for C1: on `disagreeData` the id-keyed entry (value "A") and the
par-keyed entry (value "B") for alias "k" disagree, and the resolver returns
the id-keyed entry's value even though the par entry precedes it in document
order and the cache also holds a value. -/
theorem get_sensor_value_simple_alias_precedence_witness :
    get_sensor_value_simple ["k"] disagreeData = .str "A" :=
  ((get_sensor_value_simple_alias_precedence disagreeData "k" []).1 rfl).trans rfl

/-- A snapshot whose only entry for alias "k" is par-keyed with `status = 0`,
while the control-value cache also holds "k". -/
def statusZeroData : JVal :=
  .obj (JFields.ofList
    [ ("pars", .arr (JList.ofList
        [ .obj (JFields.ofList
            [("par", .str "k"), ("val", .str "B"), ("status", .num 0)])
        ]))
    , ("device_extra", .obj (JFields.ofList
        [("ctrl_values", .obj (JFields.ofList [("k", .str "C")]))]))
    ])

/-- A snapshot whose only entry for alias "k" is par-keyed with a non-zero
status and a unit. -/
def statusValidData : JVal :=
  .obj (JFields.ofList
    [ ("pars", .arr (JList.ofList
        [ .obj (JFields.ofList
            [("par", .str "k"), ("val", .str "B"), ("status", .num 1),
             ("unit", .str "A")])
        ]))
    ])

/-- C3: In both sensor-resolver forms a par-matched entry whose `status`
field equals 0 (Python `==`) is treated as absent for that alias: the value
is not returned, the simple form falls through to the control-value cache
tier and then the next alias, and the entry form skips to the next alias.
A status that is absent or not equal to 0 counts as valid, in which case a
non-null `val` is returned (with the matched `par` and `unit` in the entry
form). -/
theorem par_status_validity (data : JVal) (key : String) (rest : List String) :
    (pyEq ((parMatch data key).getD "status" (.num 1)) (.num 0) = true →
      sensorTierPar data key = .null
      ∧ sensorEntryTierPar data key = none
      ∧ (sensorTierId data key = .null →
          get_sensor_value_simple (key :: rest) data =
            (let v3 := sensorTierCtrl (ctrlValuesOf data) key
             if !v3.isNull then v3 else get_sensor_value_simple rest data))
      ∧ (sensorEntryTierId data key = none →
          get_sensor_value_simple_entry (key :: rest) data
            = get_sensor_value_simple_entry rest data))
    ∧ (pyTruthy (parMatch data key) = true →
       pyEq ((parMatch data key).getD "status" (.num 1)) (.num 0) = false →
       ((parMatch data key).get "val").isNull = false →
      sensorTierPar data key = (parMatch data key).get "val"
      ∧ sensorEntryTierPar data key =
          some ((parMatch data key).get "par", (parMatch data key).get "val",
            (parMatch data key).getD "unit" .null)) := by
  constructor
  · intro hs
    have hpar : sensorTierPar data key = .null := by
      simp [sensorTierPar, hs]
    have hentry : sensorEntryTierPar data key = none := by
      simp [sensorEntryTierPar, hs]
    refine ⟨hpar, hentry, ?_, ?_⟩
    · intro h1
      have h1x : (sensorTierId data key).isNull = true := by rw [h1]; rfl
      have h2x : (sensorTierPar data key).isNull = true := by rw [hpar]; rfl
      simp [get_sensor_value_simple, h1x, h2x]
    · intro h1
      simp [get_sensor_value_simple_entry, h1, hentry]
  · intro ht hs hv
    constructor
    · simp [sensorTierPar, ht, hs]
    · simp [sensorEntryTierPar, ht, hs, hv]

/-- Witness for C3: with the only "k" entry par-keyed and `status = 0`, the
simple form resolves from the cache and the entry form resolves nothing;
with a non-zero status, the par value is returned. -/
theorem par_status_validity_witness :
    get_sensor_value_simple ["k"] statusZeroData = .str "C"
    ∧ get_sensor_value_simple_entry ["k"] statusZeroData = none
    ∧ sensorTierPar statusValidData "k" = .str "B"
    ∧ sensorEntryTierPar statusValidData "k"
        = some (.str "k", .str "B", .str "A") :=
  ⟨(((par_status_validity statusZeroData "k" []).1 rfl).2.2.1 rfl).trans rfl,
   (((par_status_validity statusZeroData "k" []).1 rfl).2.2.2 rfl).trans rfl,
   (((par_status_validity statusValidData "k" []).2 rfl rfl rfl).1).trans rfl,
   (((par_status_validity statusValidData "k" []).2 rfl rfl rfl).2).trans rfl⟩

/-- Snapshot: one par-keyed entry `bt_eybond_read_29` with raw value "-3.2". -/
def dischargeNegData : JVal :=
  .obj (JFields.ofList
    [ ("pars", .arr (JList.ofList
        [ .obj (JFields.ofList [("par", .str "bt_eybond_read_29"), ("val", .str "-3.2")]) ])) ])

/-- Snapshot: one par-keyed entry `bt_eybond_read_29` with raw value "4.0". -/
def dischargePosData : JVal :=
  .obj (JFields.ofList
    [ ("pars", .arr (JList.ofList
        [ .obj (JFields.ofList [("par", .str "bt_eybond_read_29"), ("val", .str "4.0")]) ])) ])

/-- Snapshot: one par-keyed entry under another key with raw value "-3.2". -/
def dischargeOtherData : JVal :=
  .obj (JFields.ofList
    [ ("pars", .arr (JList.ofList
        [ .obj (JFields.ofList [("par", .str "k2"), ("val", .str "-3.2")]) ])) ])

/-- C7: the battery-discharge-current normalizer returns 0.0 when no alias
resolves; when the matched field key equals (Python `==`) one of the two
special aliases `bt_eybond_read_29` / `Battery Current` it returns the
magnitude of a negative raw value and 0.0 for a non-negative raw value; for
any other matched field key it returns the parsed raw value unmodified,
sign included. -/
theorem resolve_battery_discharge_current_policy (keys : List String) (data : JVal) :
    (get_sensor_value_simple_entry keys data = none →
      resolve_battery_discharge_current keys data = 0)
    ∧ (∀ key rawVal u,
        get_sensor_value_simple_entry keys data = some (key, rawVal, u) →
      ((pyEq key (.str "bt_eybond_read_29") || pyEq key (.str "Battery Current")) = true →
        resolve_battery_discharge_current keys data =
          (if safe_float rawVal 0 < 0 then |safe_float rawVal 0| else 0))
      ∧ ((pyEq key (.str "bt_eybond_read_29") || pyEq key (.str "Battery Current")) = false →
        resolve_battery_discharge_current keys data = safe_float rawVal 0)) := by
  constructor
  · intro h
    simp [resolve_battery_discharge_current, h]
  · intro key rawVal u h
    constructor
    · intro hk
      simp [resolve_battery_discharge_current, h, hk]
    · intro hk
      simp [resolve_battery_discharge_current, h, hk]

/-- Witness for C7: raw "-3.2" under matched key `bt_eybond_read_29`
normalizes to 3.2; raw "4.0" under the same key to 0.0; raw "-3.2" under
another matched key to -3.2. -/
theorem resolve_battery_discharge_current_policy_witness :
    resolve_battery_discharge_current ["bt_eybond_read_29"] dischargeNegData = mkRat 16 5
    ∧ resolve_battery_discharge_current ["bt_eybond_read_29"] dischargePosData = 0
    ∧ resolve_battery_discharge_current ["k2"] dischargeOtherData = mkRat (-16) 5 :=
  ⟨(((resolve_battery_discharge_current_policy ["bt_eybond_read_29"] dischargeNegData).2
      (.str "bt_eybond_read_29") (.str "-3.2") .null rfl).1 rfl).trans (by decide),
   (((resolve_battery_discharge_current_policy ["bt_eybond_read_29"] dischargePosData).2
      (.str "bt_eybond_read_29") (.str "4.0") .null rfl).1 rfl).trans (by decide),
   (((resolve_battery_discharge_current_policy ["k2"] dischargeOtherData).2
      (.str "k2") (.str "-3.2") .null rfl).2 rfl).trans (by decide)⟩

/-- Snapshot: an id-keyed entry with value "1.5" and unit "kW". -/
def kwEntryData : JVal :=
  .obj (JFields.ofList
    [ ("pars", .arr (JList.ofList
        [ .obj (JFields.ofList
            [("id", .str "bap"), ("val", .str "1.5"), ("unit", .str "kW")]) ])) ])

/-- Snapshot: an id-keyed entry with value "1.5" and unit "W". -/
def wEntryData : JVal :=
  .obj (JFields.ofList
    [ ("pars", .arr (JList.ofList
        [ .obj (JFields.ofList
            [("id", .str "bap"), ("val", .str "1.5"), ("unit", .str "W")]) ])) ])

/-- Snapshot: an id-keyed entry with value "2.5" and no unit field at all. -/
def noUnitEntryData : JVal :=
  .obj (JFields.ofList
    [ ("pars", .arr (JList.ofList
        [ .obj (JFields.ofList [("id", .str "alp"), ("val", .str "2.5")]) ])) ])

/-- C8: the battery-power and PV-power normalizers multiply the parsed value
by 1000 exactly when the matched entry's unit field equals (Python `==`)
`"kW"` — before the sign/threshold logic — whereas the active-load-power
normalizer multiplies by 1000 unconditionally, never consulting a unit
field. -/
theorem unit_scaling_spec (keys keys2 keys3 keys4 : List String) (data : JVal) :
    (∀ key raw u, get_sensor_value_simple_entry keys data = some (key, raw, u) →
      (pyEq u (.str "kW") = true →
        resolve_battery_charging_power keys keys2 keys3 keys4 data =
          (if safe_float raw 0 * 1000 > 0 then safe_float raw 0 * 1000 else 0)
        ∧ resolve_pv_power keys data = some (safe_float raw 0 * 1000))
      ∧ (pyEq u (.str "kW") = false →
        resolve_battery_charging_power keys keys2 keys3 keys4 data =
          (if safe_float raw 0 > 0 then safe_float raw 0 else 0)
        ∧ resolve_pv_power keys data = some (safe_float raw 0)))
    ∧ resolve_active_load_power keys data =
        safe_float (get_sensor_value_simple keys data) 0 * 1000 := by
  constructor
  · intro key raw u h
    constructor
    · intro hu
      constructor
      · simp [resolve_battery_charging_power, h, hu, ratMul_eq]
      · simp [resolve_pv_power, h, hu, ratMul_eq]
    · intro hu
      constructor
      · simp [resolve_battery_charging_power, h, hu]
      · simp [resolve_pv_power, h, hu]
  · simp [resolve_active_load_power, ratMul_eq]

/-- Witness for C8: a kW-tagged raw "1.5" scales to 1500 in the battery and
PV power normalizers; a W-tagged raw "1.5" stays 1.5 in the PV normalizer;
a unit-less raw "2.5" still scales to 2500 in the active-load normalizer. -/
theorem unit_scaling_spec_witness :
    resolve_battery_charging_power ["bap"] [] [] [] kwEntryData = 1500
    ∧ resolve_pv_power ["bap"] kwEntryData = some 1500
    ∧ resolve_pv_power ["bap"] wEntryData = some (mkRat 3 2)
    ∧ resolve_active_load_power ["alp"] noUnitEntryData = 2500 := by
  have h15 : safe_float (JVal.str "1.5") 0 = mkRat 3 2 := rfl
  have h25 : safe_float (get_sensor_value_simple ["alp"] noUnitEntryData) 0
      = mkRat 5 2 := rfl
  have hkw := ((unit_scaling_spec ["bap"] [] [] [] kwEntryData).1
      (.str "bap") (.str "1.5") (.str "kW") rfl).1 rfl
  have hw := ((unit_scaling_spec ["bap"] [] [] [] wEntryData).1
      (.str "bap") (.str "1.5") (.str "W") rfl).2 rfl
  have hal := (unit_scaling_spec ["alp"] [] [] [] noUnitEntryData).2
  refine ⟨hkw.1.trans ?_, hkw.2.trans ?_, hw.2.trans ?_, hal.trans ?_⟩
  · rw [h15, Rat.mkRat_eq_div]
    norm_num
  · rw [h15, Rat.mkRat_eq_div]
    norm_num
  · rw [h15]
  · rw [h25, Rat.mkRat_eq_div]
    norm_num

/-- C9: if any of the three external collaborators is unavailable at call
time — which, by the guarded import that initializes them, happens exactly
when all three were nulled together — every orchestrator entry point fails
immediately with the configuration-error signal (`RuntimeError`), for every
input and every collaborator behaviour, before attempting any partial
operation. -/
theorem orchestrator_config_guard (importOk : Bool) (f : Collab)
    (g h : String → Except Unit JVal) (keysOPO : List String) (devcode : Int)
    (value : String) (cf : Option JVal) (cf2 : JVal)
    (hexf : String → String) (dec : String → JVal → JVal) (cmd : String) :
    ((apiModuleInit importOk f g h).setCtrl = none
      ∨ (apiModuleInit importOk f g h).getCtrl = none
      ∨ (apiModuleInit importOk f g h).sendCmd = none) →
    set_inverter_output_priority (apiModuleInit importOk f g h).setCtrl
        keysOPO devcode value cf = .configError
    ∧ get_inverter_output_priority (apiModuleInit importOk f g h).getCtrl
        keysOPO cf2 = .configError
    ∧ get_direct_data (apiModuleInit importOk f g h).sendCmd hexf dec cmd
        = .configError := by
  intro hun
  cases importOk with
  | true => simp [apiModuleInit] at hun
  | false =>
      refine ⟨?_, ?_, ?_⟩
      · simp [apiModuleInit, set_inverter_output_priority]
      · simp [apiModuleInit, get_inverter_output_priority]
      · simp [apiModuleInit, get_direct_data]

/-- Witness for C9: with the import failed, all three entry points report the
configuration error on a concrete call. -/
theorem orchestrator_config_guard_witness :
    set_inverter_output_priority
        (apiModuleInit false recordCollab (fun _ => .ok .null) (fun _ => .ok .null)).setCtrl
        specKeysOPO 2376 "SUB" none = .configError
    ∧ get_inverter_output_priority
        (apiModuleInit false recordCollab (fun _ => .ok .null) (fun _ => .ok .null)).getCtrl
        specKeysOPO ctrlFields2376 = .configError
    ∧ get_direct_data
        (apiModuleInit false recordCollab (fun _ => .ok .null) (fun _ => .ok .null)).sendCmd
        (fun c => c) (fun _ v => v) "QPIGS" = .configError :=
  orchestrator_config_guard false recordCollab (fun _ => .ok .null) (fun _ => .ok .null)
    specKeysOPO 2376 "SUB" none ctrlFields2376 (fun c => c) (fun _ v => v) "QPIGS"
    (Or.inl rfl)

/-- C6: every exception raised during the schema-driven write attempt is
swallowed and control falls through to the hardcoded per-model path; in the
hardcoded path an unrecognized device model code, or a desired label absent
from the selected model's map, makes the write a no-op that returns `None`
without calling the control-write collaborator (the fallback result does not
depend on the collaborator in those cases, and with no schema supplied the
whole call is that no-op). -/
theorem write_flow_error_policy (collab : Collab) (keysOPO : List String)
    (devcode : Int) (value : String) (cf : JVal) :
    (schemaAttempt collab keysOPO value cf = .raisedAttempt →
      set_inverter_output_priority (some collab) keysOPO devcode value (some cf)
        = hardcodedFallback collab devcode value)
    ∧ (devcode ≠ 2341 → devcode ≠ 2428 → devcode ≠ 2376 →
      hardcodedFallback collab devcode value = .retNone
      ∧ set_inverter_output_priority (some collab) keysOPO devcode value none
          = .retNone)
    ∧ (map2341 value = none → hardcodedFallback collab 2341 value = .retNone)
    ∧ (map2428 value = none → hardcodedFallback collab 2428 value = .retNone)
    ∧ (map2376 value = none → hardcodedFallback collab 2376 value = .retNone) := by
  refine ⟨?_, ?_, ?_, ?_, ?_⟩
  · intro h
    simp [set_inverter_output_priority, h]
  · intro h1 h2 h3
    have e1 : (devcode == 2341) = false := beq_eq_false_iff_ne.mpr h1
    have e2 : (devcode == 2428) = false := beq_eq_false_iff_ne.mpr h2
    have e3 : (devcode == 2376) = false := beq_eq_false_iff_ne.mpr h3
    constructor
    · simp [hardcodedFallback, e1, e2, e3]
    · simp [set_inverter_output_priority, hardcodedFallback, e1, e2, e3]
  · intro h
    simp [hardcodedFallback, h]
  · intro h
    simp [hardcodedFallback, h]
  · intro h
    simp [hardcodedFallback, h]

/-- Witness for C6: a collaborator that raises during the schema-driven
attempt on the model-2428 schema is swallowed and the hardcoded path runs
(here re-raising at its own collaborator call); an unrecognized model code
9999 with no schema is a `None` no-op; a label missing from the model-2341
map is a `None` no-op. -/
theorem write_flow_error_policy_witness :
    set_inverter_output_priority (some raisingCollab) specKeysOPO 2428 "SUB"
        (some ctrlFields2428) = .raised
    ∧ set_inverter_output_priority (some recordCollab) specKeysOPO 9999 "SBU" none
        = .retNone
    ∧ hardcodedFallback recordCollab 2341 "SUF" = .retNone :=
  ⟨((write_flow_error_policy raisingCollab specKeysOPO 2428 "SUB"
      ctrlFields2428).1 rfl).trans rfl,
   ((write_flow_error_policy recordCollab specKeysOPO 9999 "SBU"
      ctrlFields2376).2.1 (by decide) (by decide) (by decide)).2,
   (write_flow_error_policy recordCollab specKeysOPO 2341 "SUF"
      ctrlFields2376).2.2.1 rfl⟩

theorem scanItems_append_skip (accepted : List String) (pre rest : List JVal)
    (hpre : ∀ it ∈ pre, itemAccepted accepted it = false) :
    scanItems accepted (JList.ofList (pre ++ rest))
      = scanItems accepted (JList.ofList rest) := by
  induction pre with
  | nil => rfl
  | cons a as ih =>
      have ha : itemAccepted accepted a = false := hpre a (by simp)
      have ih2 := ih (fun it hit => hpre it (by simp [hit]))
      simpa [JList.ofList, scanItems, ha] using ih2

/-- A schema whose accepted item ("UTI", canonicalizing to Utility) carries
no `key` field, preceded by a non-accepted item and followed by a further
item that would be acceptable. -/
def nullKeySchema : JVal :=
  .arr (JList.ofList
    [ .obj (JFields.ofList
        [ ("id", .str "pid1")
        , ("item", .arr (JList.ofList
            [ .obj (JFields.ofList [("key", .str "1"), ("val", .str "SOL")])
            , .obj (JFields.ofList [("val", .str "UTI")])
            , .obj (JFields.ofList [("key", .str "7"), ("val", .str "UTILITY")])
            ]))
        ])
    ])

def nullKeyPreItem : JVal :=
  .obj (JFields.ofList [("key", .str "1"), ("val", .str "SOL")])

def nullKeyBadItem : JVal :=
  .obj (JFields.ofList [("val", .str "UTI")])

def nullKeyPostItem : JVal :=
  .obj (JFields.ofList [("key", .str "7"), ("val", .str "UTILITY")])

/-- C10: in the schema-driven write flow, when the first schema item whose
canonicalized label is in the accepted set has a null (absent) key, the scan
stops without considering any later item and without calling the
collaborator (`break`), and control falls through to the hardcoded per-model
fallback path. -/
theorem schema_scan_break_on_null_key (collab : Collab) (keysOPO : List String)
    (devcode : Int) (value : String) (cf : JVal) (param_id : String)
    (pre post : List JVal) (bad : JVal) :
    resolve_ctrl_field_id keysOPO cf = some param_id →
    (param_id == "") = false →
    itemsOf (schemaEntry cf param_id) = JList.ofList (pre ++ bad :: post) →
    (∀ it ∈ pre,
      itemAccepted (wantedCandidates value (itemsOf (schemaEntry cf param_id))) it
        = false) →
    itemAccepted (wantedCandidates value (itemsOf (schemaEntry cf param_id))) bad
      = true →
    bad.get "key" = .null →
    schemaAttempt collab keysOPO value cf = .fellThrough
    ∧ set_inverter_output_priority (some collab) keysOPO devcode value (some cf)
        = hardcodedFallback collab devcode value := by
  intro hid hpid hitems hpre hbad hkey
  have hscan : scanItems
      (wantedCandidates value (itemsOf (schemaEntry cf param_id)))
      (itemsOf (schemaEntry cf param_id)) = some JVal.null := by
    rw [hitems] at hpre hbad ⊢
    rw [scanItems_append_skip _ pre (bad :: post) hpre]
    simp [JList.ofList, scanItems, hbad, hkey]
  have hatt : schemaAttempt collab keysOPO value cf = .fellThrough := by
    simp [schemaAttempt, hid, hpid, hscan]
  exact ⟨hatt, by simp [set_inverter_output_priority, hatt]⟩

/-- Witness for C10: on `nullKeySchema` with desired label "Utility", the
first accepted item has no key, so the schema attempt falls through — the
later acceptable item (key "7") is never used — and the hardcoded model-2341
path performs the write instead (key "0"). -/
theorem schema_scan_break_on_null_key_witness :
    schemaAttempt recordCollab ["pid1"] "Utility" nullKeySchema = .fellThrough
    ∧ set_inverter_output_priority (some recordCollab) ["pid1"] 2341 "Utility"
        (some nullKeySchema)
        = .ok (.arr (JList.ofList [.str "los_output_source_priority", .str "0"])) := by
  have h := schema_scan_break_on_null_key recordCollab ["pid1"] 2341 "Utility"
    nullKeySchema "pid1" [nullKeyPreItem] [nullKeyPostItem] nullKeyBadItem
    rfl rfl rfl
    (fun it hit => by cases List.mem_singleton.mp hit; rfl)
    rfl rfl
  exact ⟨h.1, h.2.trans rfl⟩

/-- C4: in the schema-driven output-priority write flow the set of
acceptable target labels is exactly the canonicalized desired label, except
that when the desired label is SUB and no schema item's `val` canonicalizes
to SUB, Utility is added as an accepted fallback; the write then calls the
collaborator with the resolved parameter id and the key of the first item in
schema order whose canonicalized `val` is in the accepted set — so for the
(spec-modelled) model-2428 schema, desired label "SUB" writes id
`bse_output_source_priority` with encoded value "12336". -/
theorem schema_write_accepted_set (value : String) (items : JList)
    (collab : Collab) (keysOPO : List String) (cf : JVal) (param_id : String)
    (pre post : List JVal) (item : JVal) :
    (normalize_label_str value ≠ "SUB" →
        wantedCandidates value items = [normalize_label_str value])
    ∧ (normalize_label_str value = "SUB" → hasSubItem items = true →
        wantedCandidates value items = ["SUB"])
    ∧ (normalize_label_str value = "SUB" → hasSubItem items = false →
        wantedCandidates value items = ["SUB", "Utility"])
    ∧ (resolve_ctrl_field_id keysOPO cf = some param_id →
       (param_id == "") = false →
       itemsOf (schemaEntry cf param_id) = JList.ofList (pre ++ item :: post) →
       (∀ it ∈ pre,
         itemAccepted (wantedCandidates value (itemsOf (schemaEntry cf param_id))) it
           = false) →
       itemAccepted (wantedCandidates value (itemsOf (schemaEntry cf param_id))) item
         = true →
       (item.get "key").isNull = false →
       ∀ r, collab param_id (pyStr (item.get "key")) = .ok r →
         schemaAttempt collab keysOPO value cf = .returned r)
    ∧ set_inverter_output_priority (some recordCollab) specKeysOPO 2428 "SUB"
        (some ctrlFields2428)
        = .ok (.arr (JList.ofList [.str "bse_output_source_priority", .str "12336"])) := by
  refine ⟨?_, ?_, ?_, ?_, rfl⟩
  · intro h
    have hb : (normalize_label_str value == "SUB") = false := beq_eq_false_iff_ne.mpr h
    simp [wantedCandidates, hb]
  · intro h hsub
    simp [wantedCandidates, h, hsub]
  · intro h hsub
    simp [wantedCandidates, h, hsub]
  · intro hid hpid hitems hpre hitem hkey r hr
    have hscan : scanItems
        (wantedCandidates value (itemsOf (schemaEntry cf param_id)))
        (itemsOf (schemaEntry cf param_id)) = some (item.get "key") := by
      rw [hitems] at hpre hitem ⊢
      rw [scanItems_append_skip _ pre (item :: post) hpre]
      simp [JList.ofList, scanItems, hitem]
    cases hk : item.get "key" with
    | null => rw [hk] at hkey; simp [JVal.isNull] at hkey
    | bool b =>
        rw [hk] at hscan hr
        simp [schemaAttempt, hid, hpid, hscan, hr]
    | num q =>
        rw [hk] at hscan hr
        simp [schemaAttempt, hid, hpid, hscan, hr]
    | str s =>
        rw [hk] at hscan hr
        simp [schemaAttempt, hid, hpid, hscan, hr]
    | arr xs =>
        rw [hk] at hscan hr
        simp [schemaAttempt, hid, hpid, hscan, hr]
    | obj fs =>
        rw [hk] at hscan hr
        simp [schemaAttempt, hid, hpid, hscan, hr]

/-- Witness for C4: a non-SUB label is its own single candidate; SUB on the
SUB-carrying 2376 schema stays alone; SUB on the SUB-less 2428 schema gains
Utility; on the 2428 schema the first accepted item (UTI, key "12336") is
written to the resolved id; the full write call returns the recorded
arguments. -/
theorem schema_write_accepted_set_witness :
    wantedCandidates "Solar"
        (itemsOf (schemaEntry ctrlFields2428 "bse_output_source_priority")) = ["Solar"]
    ∧ wantedCandidates "SUB"
        (itemsOf (schemaEntry ctrlFields2376 "bse_eybond_ctrl_49")) = ["SUB"]
    ∧ wantedCandidates "SUB"
        (itemsOf (schemaEntry ctrlFields2428 "bse_output_source_priority"))
        = ["SUB", "Utility"]
    ∧ schemaAttempt recordCollab specKeysOPO "SUB" ctrlFields2428
        = .returned (.arr (JList.ofList [.str "bse_output_source_priority", .str "12336"]))
    ∧ set_inverter_output_priority (some recordCollab) specKeysOPO 2428 "SUB"
        (some ctrlFields2428)
        = .ok (.arr (JList.ofList [.str "bse_output_source_priority", .str "12336"])) := by
  refine ⟨?_, ?_, ?_, ?_, ?_⟩
  · exact (schema_write_accepted_set "Solar"
      (itemsOf (schemaEntry ctrlFields2428 "bse_output_source_priority"))
      recordCollab specKeysOPO ctrlFields2428 "bse_output_source_priority"
      [] [] .null).1 (by decide)
  · exact (schema_write_accepted_set "SUB"
      (itemsOf (schemaEntry ctrlFields2376 "bse_eybond_ctrl_49"))
      recordCollab specKeysOPO ctrlFields2376 "bse_eybond_ctrl_49"
      [] [] .null).2.1 rfl rfl
  · exact (schema_write_accepted_set "SUB"
      (itemsOf (schemaEntry ctrlFields2428 "bse_output_source_priority"))
      recordCollab specKeysOPO ctrlFields2428 "bse_output_source_priority"
      [] [] .null).2.2.1 rfl rfl
  · exact (schema_write_accepted_set "SUB"
      (itemsOf (schemaEntry ctrlFields2428 "bse_output_source_priority"))
      recordCollab specKeysOPO ctrlFields2428 "bse_output_source_priority"
      []
      [ .obj (JFields.ofList [("key", .str "12337"), ("val", .str "SOL")])
      , .obj (JFields.ofList [("key", .str "12338"), ("val", .str "SBU")]) ]
      (.obj (JFields.ofList [("key", .str "12336"), ("val", .str "UTI")]))).2.2.2.1
      rfl rfl rfl (fun it hit => absurd hit (List.not_mem_nil it)) rfl rfl
      (.arr (JList.ofList [.str "bse_output_source_priority", .str "12336"])) rfl
  · exact (schema_write_accepted_set "SUB" .nil recordCollab specKeysOPO
      ctrlFields2428 "x" [] [] .null).2.2.2.2

/-- C5: the output-priority read flow normalizes the collaborator's raw
value to an integer-like string when it is numerically an integer,
upper-cases it, maps it through the schema's item key→label dictionary
(falling back to the normalized raw value itself when absent), and
canonicalizes the result — so with a resolved control id on the
(spec-modelled) model-2376 schema, raw values "0", "0.0" and "UTI" all read
as "Utility". -/
theorem read_flow_normalization (ctrlRead : String → Except Unit JVal)
    (keysOPO : List String) (cf : JVal) (param_id : String) (fs : JFields) :
    (resolve_ctrl_field_id keysOPO cf = some param_id →
     ctrlRead param_id = .ok (.obj fs) →
     ((JVal.obj fs).get "val").isNull = false →
     get_inverter_output_priority (some ctrlRead) keysOPO cf =
       .value (.str (normalize_label_str
         (dictGetD (buildItemDict (itemsOf (schemaEntry cf param_id)) [])
           (pyUpper (pyStrip (normalizeKeyStr (pyStr ((JVal.obj fs).get "val")))))
           (pyUpper (pyStrip (normalizeKeyStr (pyStr ((JVal.obj fs).get "val")))))))))
    ∧ get_inverter_output_priority
        (some (fun _ => .ok (.obj (JFields.ofList [("val", .str "0")]))))
        specKeysOPO ctrlFields2376 = .value (.str "Utility")
    ∧ get_inverter_output_priority
        (some (fun _ => .ok (.obj (JFields.ofList [("val", .str "0.0")]))))
        specKeysOPO ctrlFields2376 = .value (.str "Utility")
    ∧ get_inverter_output_priority
        (some (fun _ => .ok (.obj (JFields.ofList [("val", .str "UTI")]))))
        specKeysOPO ctrlFields2376 = .value (.str "Utility") := by
  refine ⟨?_, rfl, rfl, rfl⟩
  intro hid hread hraw
  simp [get_inverter_output_priority, hid, hread, hraw,
    normalize_output_priority_label, pyStr]

/-- Witness for C5: the general normalization equation applied to the
model-2376 schema and a collaborator returning raw "0.0" (an integer-like
float string), whose dictionary code "0" maps to "UTI" and canonicalizes to
"Utility"; the three concrete raws all read as "Utility". -/
theorem read_flow_normalization_witness :
    get_inverter_output_priority
        (some (fun _ => .ok (.obj (JFields.ofList [("val", .str "0.0")]))))
        specKeysOPO ctrlFields2376
      = .value (.str (normalize_label_str
          (dictGetD
            (buildItemDict (itemsOf (schemaEntry ctrlFields2376 "bse_eybond_ctrl_49")) [])
            (pyUpper (pyStrip (normalizeKeyStr (pyStr
              ((JVal.obj (JFields.ofList [("val", .str "0.0")])).get "val")))))
            (pyUpper (pyStrip (normalizeKeyStr (pyStr
              ((JVal.obj (JFields.ofList [("val", .str "0.0")])).get "val"))))))))
    ∧ get_inverter_output_priority
        (some (fun _ => .ok (.obj (JFields.ofList [("val", .str "0.0")]))))
        specKeysOPO ctrlFields2376 = .value (.str "Utility") :=
  ⟨(read_flow_normalization (fun _ => .ok (.obj (JFields.ofList [("val", .str "0.0")])))
      specKeysOPO ctrlFields2376 "bse_eybond_ctrl_49"
      (JFields.ofList [("val", .str "0.0")])).1 rfl rfl rfl,
   (read_flow_normalization (fun _ => .ok (.obj (JFields.ofList [("val", .str "0.0")])))
      specKeysOPO ctrlFields2376 "bse_eybond_ctrl_49"
      (JFields.ofList [("val", .str "0.0")])).2.2.1⟩
